import Mathlib

/-!
Verification development for the zed/zedxa application bootstrap code:
shallow embeddings of `installation_id`, `build_window_options`,
`handle_keymap_file_changes`, `init_logger`, `stdout_is_a_pty`,
`load_login_shell_environment`, `init_ui`, `load_embedded_fonts`,
`open_log_file` and the ordering of the statements in the `app.run`
closure of `main`, together with theorems settling the specification
claims about them.
-/

/-! ### Key-value store and `installation_id` (crates/zed/src/main.rs, crates/zedxa/src/main.rs) -/

/-- Modelled from the spec: the persistent key-value store (`KEY_VALUE_STORE`
from the `db` crate, whose source is not part of this excerpt) is "a key-value
store read/write for a persisted installation UUID under legacy/current key
names".  We represent its state as a map from keys to optional values. -/
def KVStore : Type := String → Option String

/-- Modelled from the spec: reading a key returns the stored value, if any. -/
def read_kvp (store : KVStore) (key : String) : Option String :=
  store key

/-- Modelled from the spec: deleting a key removes its binding. -/
def delete_kvp (store : KVStore) (key : String) : KVStore :=
  fun k => if k = key then none else store k

/-- Modelled from the spec: writing a key replaces any existing binding. -/
def write_kvp (store : KVStore) (key value : String) : KVStore :=
  fun k => if k = key then some value else store k

/-- Shallow embedding of `installation_id` (identical in
`crates/zed/src/main.rs` and `crates/zedxa/src/main.rs`).  The fresh UUID that
`Uuid::new_v4()` would generate is passed in as `freshUuid`. -/
def installation_id (store : KVStore) (freshUuid : String) :
    KVStore × String × Bool :=
  match read_kvp store "device_id" with
  | some migrated =>
      (delete_kvp (write_kvp store "installation_id" migrated) "device_id",
       migrated, true)
  | none =>
      match read_kvp store "installation_id" with
      | some existing => (store, existing, true)
      | none =>
          (write_kvp store "installation_id" freshUuid, freshUuid, false)

/-! ### `build_window_options` (crates/zedxa/src/zed.rs) -/

inductive WindowDecorations : Type
  | client
  | server
deriving DecidableEq

/-- The fields of `WindowOptions` that `build_window_options` computes from
data available in this excerpt (the display, theme background and app id come
from the opaque toolkit context and are omitted). -/
structure WindowOptionsModel : Type where
  titlebarAppearsTransparent : Bool
  focus : Bool
  shown : Bool
  isMovable : Bool
  window_decorations : Option WindowDecorations
deriving DecidableEq

/-- Shallow embedding of `build_window_options`
(crates/zedxa/src/zed.rs); `zedWindowDecorations` is the state of the
`ZED_WINDOW_DECORATIONS` environment variable. -/
def build_window_options (zedWindowDecorations : Option String) :
    WindowOptionsModel :=
  let window_decorations :=
    match zedWindowDecorations with
    | some val =>
        if val = "server" then WindowDecorations.server
        else if val = "client" then WindowDecorations.client
        else WindowDecorations.client
    | none => WindowDecorations.client
  { titlebarAppearsTransparent := true
    focus := false
    shown := false
    isMovable := true
    window_decorations := some window_decorations }

/-! ### Statement order of the `app.run` closure of `main` -/

/-- The statements of the closure passed to `app.run` in `main`, in both
`crates/zed/src/main.rs` and `crates/zedxa/src/main.rs`. -/
inductive MainStep : Type
  | releaseChannelInit
  | setAppCommitSha
  | setFsGlobal
  | gitHostingInit
  | settingsInit
  | handleSettingsFileChanges
  | handleKeymapFileChanges
  | clientInitSettings
  | clientProduction
  | setHttpClient
  | languageRegistryNew
  | languageInit
  | languagesInit
  | newUserStore
  | newWorkspaceStore
  | clientSetGlobal
  | zedInit
  | projectInit
  | clientInit
  | languageInitAgain
  | telemetryStart
  | telemetryReportAppEvent
  | newAppSession
  | buildAppState
  | appStateSetGlobal
  | autoUpdateInit
  | reliabilityInit
  | initCommon
  | initUiStep
  | spawnRestoreWorkspace
deriving DecidableEq

/-- The statement sequence of the `app.run` closure in
`crates/zed/src/main.rs` (lines 288-360), in source order. -/
def zedRunTrace : List MainStep :=
  [ .releaseChannelInit, .setAppCommitSha, .setFsGlobal, .gitHostingInit,
    .settingsInit, .handleSettingsFileChanges, .handleKeymapFileChanges,
    .clientInitSettings, .clientProduction, .setHttpClient,
    .languageRegistryNew, .languageInit, .languagesInit,
    .newUserStore, .newWorkspaceStore, .clientSetGlobal,
    .zedInit, .projectInit, .clientInit, .languageInitAgain,
    .telemetryStart, .telemetryReportAppEvent,
    .newAppSession, .buildAppState, .appStateSetGlobal,
    .autoUpdateInit, .reliabilityInit, .initCommon, .initUiStep,
    .spawnRestoreWorkspace ]

/-- The statement sequence of the `app.run` closure in
`crates/zedxa/src/main.rs` (lines 191-254), in source order. -/
def zedxaRunTrace : List MainStep :=
  [ .releaseChannelInit, .setAppCommitSha, .setFsGlobal, .gitHostingInit,
    .settingsInit, .handleSettingsFileChanges, .handleKeymapFileChanges,
    .clientInitSettings, .clientProduction, .setHttpClient,
    .languageRegistryNew, .languageInit, .languagesInit,
    .newUserStore, .newWorkspaceStore, .clientSetGlobal,
    .zedInit, .projectInit, .clientInit, .languageInitAgain,
    .newAppSession, .buildAppState, .appStateSetGlobal,
    .reliabilityInit, .initCommon, .initUiStep,
    .spawnRestoreWorkspace ]

/-! ### `handle_keymap_file_changes` / `reload_keymaps` (crates/zedxa/src/zed.rs) -/

/-- The two kinds of events the `select_biased!` in the hot-reload loop of
`handle_keymap_file_changes` can receive: a base-keymap/vim-mode settings
change signal, or new contents of the keymap file. -/
inductive KeymapEvent : Type
  | baseKeymapChanged
  | fileContent (content : String)

/-- What one iteration of the hot-reload loop produces: the value of the
`user_keymap` loop variable afterwards, whether (and with which argument) the
`keymap_changed` callback was invoked, and the keymap passed to
`reload_keymaps` at the end of the iteration. -/
structure KeymapStepOut (E K : Type) : Type where
  userKeymap : K
  callback : Option (Option E)
  reloaded : K

/-- Shallow embedding of one iteration of the loop body in
`handle_keymap_file_changes` (crates/zedxa/src/zed.rs).  `KeymapFile::parse`
lives in the settings crate, outside this excerpt, so it is abstracted as the
`parse` argument.  A `fileContent` event is matched on the parse result:
success invokes the callback with `none` and replaces `user_keymap`, failure
invokes it with `some e` and leaves `user_keymap` unchanged; in every case
`reload_keymaps` is then called with the current `user_keymap`. -/
def keymapStep {E K : Type} (parse : String → Except E K) (userKeymap : K)
    (ev : KeymapEvent) : KeymapStepOut E K :=
  match ev with
  | .baseKeymapChanged =>
      { userKeymap := userKeymap, callback := none, reloaded := userKeymap }
  | .fileContent content =>
      match parse content with
      | .ok keymapContent =>
          { userKeymap := keymapContent, callback := some none,
            reloaded := keymapContent }
      | .error e =>
          { userKeymap := userKeymap, callback := some (some e),
            reloaded := userKeymap }

/-- The `user_keymap` state after the hot-reload loop has processed a list of
events, starting from `st` (the loop starts from `KeymapFile::default()`). -/
def keymapRun {E K : Type} (parse : String → Except E K) (st : K)
    (evs : List KeymapEvent) : K :=
  evs.foldl (fun s ev => (keymapStep parse s ev).userKeymap) st

/-- A second definition following the words of the specification claim: the
keymap "in effect" is the last successfully parsed file content, earlier
state being retained across parse failures.  `keymapRun` is proved to
coincide with it. -/
def lastGoodKeymap {E K : Type} (parse : String → Except E K) (st : K)
    (evs : List KeymapEvent) : K :=
  evs.foldl
    (fun s ev =>
      match ev with
      | .baseKeymapChanged => s
      | .fileContent c =>
          match parse c with
          | .ok k => k
          | .error _ => s)
    st

/-! ### `init_logger` and `stdout_is_a_pty` (both main.rs files) -/

/-- The part of the file system `init_logger` touches: the current log file
and the rotated `.old` log file, each `none` when absent.  File contents are
byte lists, so sizes are lengths. -/
structure FileSys : Type where
  logFile : Option (List Nat)
  oldLogFile : Option (List Nat)
deriving DecidableEq

/-- `MAX_LOG_BYTES` from `init_logger`: one MiB. -/
def MAX_LOG_BYTES : Nat := 1024 * 1024

/-- Where `init_logger` ends up sending log output. -/
inductive LogDest : Type
  | stdoutDest
  | fileDest
deriving DecidableEq

structure InitLoggerResult : Type where
  fs : FileSys
  dest : LogDest
deriving DecidableEq

/-- Shallow embedding of `init_logger` (identical in both main.rs files).
`isPty` is the value of `stdout_is_a_pty()`; `openFails` tells whether the
`OpenOptions::new().create(true).append(true).open(..)` call fails (an
external I/O outcome).  When stdout is a pty, logging goes to stdout and the
file system is untouched.  Otherwise the log file is renamed to the `.old`
path when its size exceeds `MAX_LOG_BYTES`, and then opened in
create-and-append mode; if opening fails, the code falls back to the stdout
logger. -/
def init_logger (isPty : Bool) (openFails : Bool) (fs : FileSys) :
    InitLoggerResult :=
  if isPty then { fs := fs, dest := .stdoutDest }
  else
    let fs1 :=
      match fs.logFile with
      | some f =>
          if f.length > MAX_LOG_BYTES then
            { logFile := none, oldLogFile := some f : FileSys }
          else fs
      | none => fs
    if openFails then { fs := fs1, dest := .stdoutDest }
    else
      { fs := { fs1 with logFile := some (fs1.logFile.getD []) },
        dest := .fileDest }

/-- Shallow embedding of `stdout_is_a_pty`: true when the force-CLI-mode
environment variable (`FORCE_CLI_MODE_ENV_VAR_NAME`) is unset and stdout is a
terminal.  `forceCliVar` is the state of that variable and `isTerminal` the
result of `std::io::stdout().is_terminal()`. -/
def stdout_is_a_pty (forceCliVar : Option String) (isTerminal : Bool) : Bool :=
  forceCliVar.isNone && isTerminal

/-- How `main` obtains the `login_shell_env_loaded` task
(crates/zed/src/main.rs lines 265-271): an already-completed task when stdout
is a pty, otherwise a freshly spawned background task that sources the login
shell environment. -/
inductive LoginShellTask : Type
  | readyTask
  | spawnedLoadTask
deriving DecidableEq

/-- The `login_shell_env_loaded` binding in `main` of crates/zed/src/main.rs. -/
def login_shell_env_loaded (isPty : Bool) : LoginShellTask :=
  if isPty then .readyTask else .spawnedLoadTask

/-! ### `load_login_shell_environment` (crates/zed/src/main.rs) -/

/-- The outcome of the spawned login shell, mirroring
`std::process::Output`: exit status success flag and captured stdout. -/
structure ShellOutput : Type where
  success : Bool
  stdout : String

/-- The characters that follow the first occurrence of `marker` in `s`, or
`none` when `marker` does not occur. -/
def afterMarkerChars (marker : List Char) : List Char → Option (List Char)
  | [] => if marker = [] then some [] else none
  | c :: cs =>
      if marker.isPrefixOf (c :: cs) then some ((c :: cs).drop marker.length)
      else afterMarkerChars marker cs

/-- The portion of `s` that follows the first occurrence of `marker`, or
`none` when `marker` does not occur: the embedding of
`stdout.find(marker)` followed by slicing past the marker. -/
def afterMarker (marker s : String) : Option String :=
  (afterMarkerChars marker.data s.data).map (fun cs => String.mk cs)

/-- The `shell_cmd` string built by `load_login_shell_environment`: an
optional `cd` into `$HOME`, a `printf` of the marker, then `/usr/bin/env`. -/
def login_shell_cmd (homeVar : Option String) : String :=
  let shellCmdPre :=
    match homeVar with
    | some home => "cd \x27" ++ home ++ "\x27;"
    | none => ""
  shellCmdPre ++ "printf \x27%s\x27 ZED_LOGIN_SHELL_START; /usr/bin/env; exit 0;"

/-- Shallow embedding of `load_login_shell_environment`
(crates/zed/src/main.rs lines 637-687).  `shellVar` and `homeVar` are the
`SHELL` and `HOME` environment variables; `runShell shellBinary shellCmd`
models spawning `$SHELL -l -i -c shellCmd`, which can itself fail;
`parse_env_output` is the `util` crate helper (outside this excerpt) that
turns env-command output into key/value pairs, abstracted as an argument.
The result is the list of environment variables the function sets, or the
error it returns. -/
def load_login_shell_environment
    (shellVar homeVar : Option String)
    (runShell : String → String → Except String ShellOutput)
    (parse_env_output : String → List (String × String)) :
    Except String (List (String × String)) :=
  let marker := "ZED_LOGIN_SHELL_START"
  match shellVar with
  | none => .error "SHELL environment variable is not assigned"
  | some shell =>
      match runShell shell (login_shell_cmd homeVar) with
      | .error e => .error e
      | .ok output =>
          if !output.success then .error "login shell exited with error"
          else
            match afterMarker marker output.stdout with
            | some envOutput => .ok (parse_env_output envOutput)
            | none => .ok []

/-! ### `load_embedded_fonts` and `init_ui` (crates/zed/src/main.rs,
crates/zedxa/src/main.rs) -/

/-- The single outcome of a failed `unwrap()`: the thread panics, aborting
the surrounding initialization. -/
inductive PanicKind : Type
  | unwrapFailed
deriving DecidableEq

/-- `Result::unwrap()`: a panic on the error case. -/
def unwrapR {α : Type} (x : Except String α) : Except PanicKind α :=
  match x with
  | .ok a => .ok a
  | .error _ => .error .unwrapFailed

/-- `Option::unwrap()`: a panic on `None`. -/
def unwrapO {α : Type} (x : Option α) : Except PanicKind α :=
  match x with
  | some a => .ok a
  | none => .error .unwrapFailed

/-- The asset source consulted by `load_embedded_fonts`: listing a directory
and loading an asset, both fallible, with `load` additionally returning an
`Option` for a missing asset. -/
structure AssetSource : Type where
  listAssets : String → Except String (List String)
  loadAsset : String → Except String (Option (List Nat))

/-- Shallow embedding of `load_embedded_fonts` (crates/zed/src/main.rs lines
709-731): list the font assets (`unwrap`), load the bytes of every `.ttf`
asset (`unwrap().unwrap()`), and register them with the text system
(`unwrap`, modelled by the `addFonts` argument).  Every failure surfaces as a
panic. -/
def load_embedded_fonts (assets : AssetSource)
    (addFonts : List (List Nat) → Except String Unit) :
    Except PanicKind Unit := do
  let fontPaths ← unwrapR (assets.listAssets "fonts")
  let fontBytes ← fontPaths.foldlM
    (fun acc fontPath => do
      if fontPath.endsWith ".ttf" then
        let loaded ← unwrapR (assets.loadAsset fontPath)
        let bytes ← unwrapO loaded
        pure (acc ++ [bytes])
      else
        pure acc)
    ([] : List (List Nat))
  unwrapR (addFonts fontBytes)

/-- The application state that `init_ui` reads and writes in this excerpt:
the `AppMode` global (`some ()` once `AppMode::Ui` has been set) and the
sequence of initialization steps performed so far. -/
structure UiState : Type where
  appMode : Option Unit
  steps : List String
deriving DecidableEq

/-- The initialization calls the body of `init_ui` in crates/zed/src/main.rs
performs after `load_embedded_fonts`, in source order. -/
def initUiSteps : List String :=
  [ "languages.set_theme", "editor::init", "image_viewer::init",
    "diagnostics::init", "audio::init", "workspace::init",
    "recent_projects::init", "go_to_line::init", "file_finder::init",
    "tab_switcher::init", "dev_server_projects::init", "outline::init",
    "project_symbols::init", "project_panel::init", "outline_panel::init",
    "tasks_ui::init", "channel::init", "search::init", "vim::init",
    "terminal_view::init", "journal::init", "language_selector::init",
    "theme_selector::init", "language_tools::init", "call::init",
    "notifications::init", "collab_ui::init", "feedback::init",
    "markdown_preview::init", "welcome::init", "settings_ui::init",
    "extensions_ui::init", "performance::init", "observe_settings_global",
    "telemetry_report_settings", "load_user_themes_in_background",
    "watch_themes", "watch_languages", "watch_file_types", "set_menus",
    "initialize_workspace", "activate", "spawn_authenticate" ]

/-- Shallow embedding of `init_ui` (crates/zed/src/main.rs lines 105-196).
If the `AppMode::Ui` global is already set it returns `Ok(())` at once;
otherwise it sets the global, runs `load_embedded_fonts` (whose failures
panic, modelled as an `Except.error` outcome that prevents the remaining
steps), and then performs the remaining initialization calls and returns
`Ok(())`. -/
def init_ui (assets : AssetSource)
    (addFonts : List (List Nat) → Except String Unit) (st : UiState) :
    UiState × Except PanicKind Unit :=
  match st.appMode with
  | some _ => (st, .ok ())
  | none =>
      let st1 : UiState := { st with appMode := some () }
      match load_embedded_fonts assets addFonts with
      | .error e => (st1, .error e)
      | .ok _ => ({ st1 with steps := st1.steps ++ initUiSteps }, .ok ())

/-- The initialization calls `init_ui` in crates/zedxa/src/main.rs performs,
in source order (this variant loads no fonts). -/
def initUiStepsXa : List String :=
  [ "languages.set_theme", "editor::init", "workspace::init",
    "tab_switcher::init", "theme_selector::init", "welcome::init",
    "set_menus", "activate" ]

/-- Shallow embedding of `init_ui` in crates/zedxa/src/main.rs (lines
97-113): the same `AppMode` guard, followed by an infallible sequence of
initialization calls. -/
def init_ui_xa (st : UiState) : UiState × Except PanicKind Unit :=
  match st.appMode with
  | some _ => (st, .ok ())
  | none =>
      ({ appMode := some (), steps := st.steps ++ initUiStepsXa }, .ok ())

/-! ### `open_log_file` (crates/zedxa/src/zed.rs) -/

/-- `MAX_LINES` from `open_log_file`: at most this many trailing log lines
are shown. -/
def MAX_LINES : Nat := 1000

/-- Split a character list at every newline; the result is always
nonempty (an empty input yields one empty piece). -/
def splitNl : List Char → List (List Char)
  | [] => [[]]
  | c :: cs =>
      if c = '\n' then [] :: splitNl cs
      else
        match splitNl cs with
        | [] => [[c]]
        | l :: ls => (c :: l) :: ls

/-- Strip one carriage return from the end of a line, as Rust line splitting
does for `\r\n` terminators. -/
def stripCr (l : List Char) : List Char :=
  if l.getLast? = some '\r' then l.dropLast else l

/-- Rust's `str::lines()`: split on newline, treating a trailing newline as a
terminator rather than introducing an empty final line, and stripping a
carriage return at the end of each line. -/
def rustLines (s : String) : List String :=
  if s.data = [] then []
  else
    let pieces := splitNl s.data
    let pieces := if s.data.getLast? = some '\n' then pieces.dropLast else pieces
    pieces.map (fun l => String.mk (stripCr l))

/-- One step of the bounded `VecDeque` accumulation in `open_log_file`: when
the deque already holds `maxLines` lines, the front (oldest) line is popped
before the new line is pushed at the back. -/
def pushLine (maxLines : Nat) (acc : List String) (line : String) :
    List String :=
  if acc.length = maxLines then acc.tail ++ [line] else acc ++ [line]

/-- The whole `for line in ...` loop of `open_log_file`: fold `pushLine` over
the lines of the old log followed by the lines of the current log. -/
def collectLines (maxLines : Nat) (lines : List String) : List String :=
  lines.foldl (pushLine maxLines) []

/-- The lines contributed by one fs.load result, mirroring
`log.iter().flat_map(|log| log.lines())` on a `Result`: the lines of the
content on success, nothing on failure. -/
def exceptLines (res : Except Unit String) : List String :=
  match res with
  | .ok s => rustLines s
  | .error _ => []

/-- Shallow embedding of the log-text computation in `open_log_file`
(crates/zedxa/src/zed.rs lines 491-576).  `oldLog` and `newLog` are the
results of `fs.load` on the `.old` and current log files.  When both fail
the result is `none` (an error notification is shown); otherwise the last
`MAX_LINES` lines of old-then-new are joined, each followed by a newline. -/
def open_log_file_text (oldLog newLog : Except Unit String) :
    Option String :=
  match oldLog, newLog with
  | .error _, .error _ => none
  | o, n =>
      let lines := collectLines MAX_LINES (exceptLines o ++ exceptLines n)
      some (String.join (lines.flatMap (fun line => [line, "\n"])))

/-! ## Theorems settling the claims -/

/-- C1: for every key-value store state, `installation_id` migrates a value
held under the legacy key "device_id" to "installation_id", deletes
"device_id" and returns it with `true`; otherwise it returns an existing
"installation_id" value with `true` and an unchanged store; otherwise it
writes the fresh UUID under "installation_id" and returns it with `false`. -/
theorem installation_id_correct (store : KVStore) (u v : String) :
    (read_kvp store "device_id" = some v →
        (installation_id store u).2 = (v, true) ∧
        read_kvp (installation_id store u).1 "installation_id" = some v ∧
        read_kvp (installation_id store u).1 "device_id" = none)
  ∧ (read_kvp store "device_id" = none →
      read_kvp store "installation_id" = some v →
        installation_id store u = (store, v, true))
  ∧ (read_kvp store "device_id" = none →
      read_kvp store "installation_id" = none →
        (installation_id store u).2 = (u, false) ∧
        (installation_id store u).1 = write_kvp store "installation_id" u ∧
        read_kvp (installation_id store u).1 "installation_id" = some u) := by
  have hne : "installation_id" ≠ "device_id" := by decide
  refine ⟨?_, ?_, ?_⟩
  · intro h
    simp only [read_kvp] at h
    simp [installation_id, h, read_kvp, write_kvp, delete_kvp, hne]
  · intro h1 h2
    simp only [read_kvp] at h1 h2
    simp [installation_id, read_kvp, h1, h2]
  · intro h1 h2
    simp only [read_kvp] at h1 h2
    simp [installation_id, h1, h2, read_kvp, write_kvp, delete_kvp]

/-- Witness for `installation_id_correct`: a store holding only the legacy
"device_id" key is migrated. -/
theorem installation_id_correct_witness :
    read_kvp (fun k => if k = "device_id" then some "legacy-uuid" else none)
        "device_id" = some "legacy-uuid"
    ∧ read_kvp
        (installation_id
          (fun k => if k = "device_id" then some "legacy-uuid" else none)
          "u1").1 "installation_id" = some "legacy-uuid"
    ∧ read_kvp
        (installation_id
          (fun k => if k = "device_id" then some "legacy-uuid" else none)
          "u1").1 "device_id" = none := by
  refine ⟨rfl, ?_, ?_⟩
  · exact ((installation_id_correct
      (fun k => if k = "device_id" then some "legacy-uuid" else none)
      "u1" "legacy-uuid").1 rfl).2.1
  · exact ((installation_id_correct
      (fun k => if k = "device_id" then some "legacy-uuid" else none)
      "u1" "legacy-uuid").1 rfl).2.2

theorem keymapRun_eq_lastGoodKeymap {E K : Type} (parse : String → Except E K)
    (st : K) (evs : List KeymapEvent) :
    keymapRun parse st evs = lastGoodKeymap parse st evs := by
  induction evs generalizing st with
  | nil => rfl
  | cons ev evs ih =>
      cases ev with
      | baseKeymapChanged => exact ih st
      | fileContent c =>
          cases hp : parse c with
          | ok k =>
              have e1 : keymapRun parse st (.fileContent c :: evs) =
                  keymapRun parse k evs := by
                simp [keymapRun, keymapStep, hp]
              have e2 : lastGoodKeymap parse st (.fileContent c :: evs) =
                  lastGoodKeymap parse k evs := by
                simp [lastGoodKeymap, hp]
              rw [e1, e2]; exact ih k
          | error e =>
              have e1 : keymapRun parse st (.fileContent c :: evs) =
                  keymapRun parse st evs := by
                simp [keymapRun, keymapStep, hp]
              have e2 : lastGoodKeymap parse st (.fileContent c :: evs) =
                  lastGoodKeymap parse st evs := by
                simp [lastGoodKeymap, hp]
              rw [e1, e2]; exact ih st

/-- C2: in the hot-reload loop of `handle_keymap_file_changes`, a file
content that parses invokes the callback with `none` and re-registers the
bindings from the newly parsed keymap; one that fails to parse invokes the
callback with `some error` and re-registers from the last successfully
parsed keymap, leaving the state unchanged — so after any event sequence the
keymap in effect is the last successfully parsed one. -/
theorem handle_keymap_file_changes_correct {E K : Type}
    (parse : String → Except E K) (st : K) (content : String) :
    (∀ k, parse content = .ok k →
        keymapStep parse st (.fileContent content) =
          { userKeymap := k, callback := some none, reloaded := k })
  ∧ (∀ e, parse content = .error e →
        keymapStep parse st (.fileContent content) =
          { userKeymap := st, callback := some (some e), reloaded := st })
  ∧ (∀ evs, keymapRun parse st evs = lastGoodKeymap parse st evs) := by
  refine ⟨?_, ?_, fun evs => keymapRun_eq_lastGoodKeymap parse st evs⟩
  · intro k hk; simp [keymapStep, hk]
  · intro e he; simp [keymapStep, he]

/-- Witness for `handle_keymap_file_changes_correct`: a parser that rejects
the content "bad" leaves the previous keymap in effect and reports the
error. -/
theorem handle_keymap_file_changes_witness :
    keymapStep (fun s => if s = "bad" then Except.error 0 else Except.ok s)
        "old" (.fileContent "bad") =
      { userKeymap := "old", callback := some (some 0), reloaded := "old" } :=
  (handle_keymap_file_changes_correct
    (fun s => if s = "bad" then Except.error 0 else Except.ok s)
    "old" "bad").2.1 0 (by simp)

/-- C3: when stdout is not a terminal, `init_logger` renames the log file to
the `.old` path exactly when its size exceeds `MAX_LOG_BYTES` (1 MiB); a log
file at or below that size is opened in create-and-append mode with its
contents unchanged, and an absent log file is created empty. -/
theorem init_logger_rotation (fs : FileSys) (f : List Nat) :
    (fs.logFile = some f → f.length > MAX_LOG_BYTES →
        (init_logger false false fs).fs =
          { logFile := some [], oldLogFile := some f })
  ∧ (fs.logFile = some f → f.length ≤ MAX_LOG_BYTES →
        (init_logger false false fs).fs =
          { logFile := some f, oldLogFile := fs.oldLogFile })
  ∧ (fs.logFile = none →
        (init_logger false false fs).fs =
          { logFile := some [], oldLogFile := fs.oldLogFile }) := by
  refine ⟨?_, ?_, ?_⟩
  · intro h hgt
    simp [init_logger, h, hgt]
  · intro h hle
    have hnot : ¬ (f.length > MAX_LOG_BYTES) := by omega
    simp [init_logger, h, hnot]
  · intro h
    simp [init_logger, h]

/-- Witness for `init_logger_rotation`: a two-byte log file is not rotated
and keeps its contents; its size is within the 1 MiB bound. -/
theorem init_logger_rotation_witness :
    ([3, 4] : List Nat).length ≤ MAX_LOG_BYTES
    ∧ (init_logger false false { logFile := some [3, 4], oldLogFile := some [9] }).fs =
        { logFile := some [3, 4], oldLogFile := some [9] } := by
  constructor
  · decide
  · exact (init_logger_rotation
      { logFile := some [3, 4], oldLogFile := some [9] } [3, 4]).2.1 rfl (by decide)

/-- C5: `build_window_options` sets the window decorations to `Server` if and
only if `ZED_WINDOW_DECORATIONS` is set to exactly "server"; in every other
case (any other value, or unset) they are `Client`. -/
theorem build_window_options_decorations (env : Option String) :
    ((build_window_options env).window_decorations =
        some WindowDecorations.server ↔ env = some "server")
  ∧ (env ≠ some "server" →
      (build_window_options env).window_decorations =
        some WindowDecorations.client) := by
  constructor
  · cases env with
    | none => simp [build_window_options]
    | some val =>
        by_cases h : val = "server"
        · subst h; simp [build_window_options]
        · by_cases h2 : val = "client" <;>
            simp [build_window_options, h, h2]
  · intro hne
    cases env with
    | none => simp [build_window_options]
    | some val =>
        have h : val ≠ "server" := fun hv => hne (by rw [hv])
        by_cases h2 : val = "client" <;>
          simp [build_window_options, h, h2]

/-- Witness for `build_window_options_decorations`: the value "client" (not
"server") yields client-side decorations. -/
theorem build_window_options_decorations_witness :
    (build_window_options (some "client")).window_decorations =
      some WindowDecorations.client :=
  (build_window_options_decorations (some "client")).2 (by decide)

/-- C7: in the `app.run` closure of `main`, in both the zed and zedxa crates,
`settings::init` and `handle_settings_file_changes` occur strictly before the
statement that spawns the `restore_or_create_workspace` task, so workspace
restoration is never started before settings initialization. -/
theorem settings_init_before_restore_spawn :
    (zedRunTrace.indexOf .settingsInit <
        zedRunTrace.indexOf .spawnRestoreWorkspace
      ∧ zedRunTrace.indexOf .handleSettingsFileChanges <
          zedRunTrace.indexOf .spawnRestoreWorkspace
      ∧ MainStep.settingsInit ∈ zedRunTrace
      ∧ MainStep.spawnRestoreWorkspace ∈ zedRunTrace)
  ∧ (zedxaRunTrace.indexOf .settingsInit <
        zedxaRunTrace.indexOf .spawnRestoreWorkspace
      ∧ zedxaRunTrace.indexOf .handleSettingsFileChanges <
          zedxaRunTrace.indexOf .spawnRestoreWorkspace
      ∧ MainStep.settingsInit ∈ zedxaRunTrace
      ∧ MainStep.spawnRestoreWorkspace ∈ zedxaRunTrace) := by
  decide

/-- C8 as stated is false: its third conjunct says `init_logger` logs to
stdout exactly when `stdout_is_a_pty` is true, but when stdout is not a pty
and opening the log file fails, `init_logger` falls back to the stdout
logger. -/
theorem stdout_pty_claim_counterexample :
    ¬ ((∀ (v : Option String) (t : Bool),
          stdout_is_a_pty v t = true ↔ (v = none ∧ t = true))
      ∧ (∀ (v : Option String) (t : Bool),
          login_shell_env_loaded (stdout_is_a_pty v t) = .spawnedLoadTask ↔
            stdout_is_a_pty v t = false)
      ∧ (∀ (isPty openFails : Bool) (fs : FileSys),
          (init_logger isPty openFails fs).dest = .stdoutDest ↔
            isPty = true)) := by
  intro h
  have h3 := (h.2.2 false true { logFile := none, oldLogFile := none }).mp rfl
  exact Bool.false_ne_true h3

/-- C8 amended: `stdout_is_a_pty` is true exactly when the force-CLI-mode
variable is unset and stdout is a terminal; `main` spawns the login-shell
sourcing task exactly when `stdout_is_a_pty` is false; and `init_logger`
logs to stdout exactly when `stdout_is_a_pty` is true or opening the log
file fails (in which case it falls back to stdout logging). -/
theorem stdout_is_a_pty_correct (v : Option String) (t : Bool)
    (isPty openFails : Bool) (fs : FileSys) :
    (stdout_is_a_pty v t = true ↔ (v = none ∧ t = true))
  ∧ (login_shell_env_loaded (stdout_is_a_pty v t) = .spawnedLoadTask ↔
      stdout_is_a_pty v t = false)
  ∧ ((init_logger isPty openFails fs).dest = .stdoutDest ↔
      (isPty = true ∨ openFails = true)) := by
  refine ⟨?_, ?_, ?_⟩
  · cases v <;> cases t <;> simp [stdout_is_a_pty]
  · cases hp : stdout_is_a_pty v t <;> simp [login_shell_env_loaded]
  · cases isPty <;> cases openFails <;> simp [init_logger]

/-- An asset source whose listing and loading both fail, exhibiting a font
loading failure. -/
def badAssetSource : AssetSource where
  listAssets := fun _ => .error "failed to list fonts"
  loadAsset := fun _ => .error "failed to load font"

/-- C4 as stated is false: a failure while listing the font assets is not
swallowed — `load_embedded_fonts` unwraps it into a panic, and `init_ui`
does not proceed to return `Ok`. -/
theorem init_ui_font_failure_counterexample :
    load_embedded_fonts badAssetSource (fun _ => .ok ()) =
      .error .unwrapFailed
    ∧ (init_ui badAssetSource (fun _ => .ok ())
        { appMode := none, steps := [] }).2 ≠ .ok () := by
  refine ⟨rfl, fun h => ?_⟩
  have h2 : (Except.error PanicKind.unwrapFailed : Except PanicKind Unit) =
      .ok () := h
  exact Except.noConfusion h2

/-- C4 amended: every failure in font loading during `init_ui` (asset
listing, font-asset loading, or registering the fonts) panics via `unwrap`,
aborting `init_ui` before the remaining initialization steps, so `init_ui`
performs its initialization and returns `Ok` exactly when font loading
succeeds. -/
theorem init_ui_font_failure_panics (assets : AssetSource)
    (addFonts : List (List Nat) → Except String Unit) (st : UiState)
    (hmode : st.appMode = none) :
    (∀ e, load_embedded_fonts assets addFonts = .error e →
        (init_ui assets addFonts st).2 = .error e ∧
        (init_ui assets addFonts st).1.steps = st.steps)
  ∧ (∀ u, load_embedded_fonts assets addFonts = .ok u →
        (init_ui assets addFonts st).2 = .ok () ∧
        (init_ui assets addFonts st).1.steps = st.steps ++ initUiSteps) := by
  constructor
  · intro e he
    simp [init_ui, hmode, he]
  · intro u hu
    cases u
    simp [init_ui, hmode, hu]

/-- Witness for `init_ui_font_failure_panics`: with the failing asset
source, `init_ui` on a fresh state aborts with a panic. -/
theorem init_ui_font_failure_panics_witness :
    (init_ui badAssetSource (fun _ => .ok ())
        { appMode := none, steps := [] }).2 = .error .unwrapFailed :=
  ((init_ui_font_failure_panics badAssetSource (fun _ => .ok ())
      { appMode := none, steps := [] } rfl).1 .unwrapFailed rfl).1

/-- C9: `init_ui` is idempotent — a first call (with the `AppMode` global
unset) sets `AppMode::Ui` and performs the initialization steps, and every
subsequent call observes the global and returns `Ok(())` immediately with
the state unchanged; likewise for the zedxa variant. -/
theorem init_ui_idempotent (assets : AssetSource)
    (addFonts : List (List Nat) → Except String Unit) (st : UiState) :
    (st.appMode = some () →
        init_ui assets addFonts st = (st, .ok ()) ∧
        init_ui_xa st = (st, .ok ()))
  ∧ (st.appMode = none → load_embedded_fonts assets addFonts = .ok () →
        init_ui assets addFonts st =
          ({ appMode := some (), steps := st.steps ++ initUiSteps }, .ok ()) ∧
        init_ui assets addFonts (init_ui assets addFonts st).1 =
          ((init_ui assets addFonts st).1, .ok ()))
  ∧ (st.appMode = none →
        init_ui_xa st =
          ({ appMode := some (), steps := st.steps ++ initUiStepsXa },
            .ok ()) ∧
        init_ui_xa (init_ui_xa st).1 = ((init_ui_xa st).1, .ok ())) := by
  refine ⟨?_, ?_, ?_⟩
  · intro hmode
    constructor <;> simp [init_ui, init_ui_xa, hmode]
  · intro hmode hok
    have h1 : init_ui assets addFonts st =
        ({ appMode := some (), steps := st.steps ++ initUiSteps }, .ok ()) := by
      simp [init_ui, hmode, hok]
    refine ⟨h1, ?_⟩
    rw [h1]
    simp [init_ui]
  · intro hmode
    have h1 : init_ui_xa st =
        ({ appMode := some (), steps := st.steps ++ initUiStepsXa }, .ok ()) := by
      simp [init_ui_xa, hmode]
    refine ⟨h1, ?_⟩
    rw [h1]
    simp [init_ui_xa]

/-- An asset source with no font assets, under which `load_embedded_fonts`
succeeds. -/
def emptyAssetSource : AssetSource where
  listAssets := fun _ => .ok []
  loadAsset := fun _ => .ok (some [])

/-- Witness for `init_ui_idempotent`: with an asset source that loads
successfully, a second call to `init_ui` after a first call from a fresh
state is an identity returning `Ok`. -/
theorem init_ui_idempotent_witness :
    init_ui emptyAssetSource (fun _ => .ok ())
        (init_ui emptyAssetSource (fun _ => .ok ())
          { appMode := none, steps := [] }).1 =
      ((init_ui emptyAssetSource (fun _ => .ok ())
          { appMode := none, steps := [] }).1, .ok ()) :=
  ((init_ui_idempotent emptyAssetSource (fun _ => .ok ())
      { appMode := none, steps := [] }).2.1 rfl rfl).2

/-- C6: `load_login_shell_environment` fails when `SHELL` is unset and when
the spawned login shell exits unsuccessfully; on success it sets exactly the
variables parsed from the portion of the shell stdout that follows the
marker "ZED_LOGIN_SHELL_START", and sets none (while still returning `Ok`)
when the marker is absent. -/
theorem load_login_shell_environment_correct
    (homeVar : Option String)
    (runShell : String → String → Except String ShellOutput)
    (parse_env_output : String → List (String × String))
    (shell : String) (out : ShellOutput) :
    (load_login_shell_environment none homeVar runShell parse_env_output =
        .error "SHELL environment variable is not assigned")
  ∧ (runShell shell (login_shell_cmd homeVar) = .ok out →
      out.success = false →
        load_login_shell_environment (some shell) homeVar runShell
          parse_env_output = .error "login shell exited with error")
  ∧ (runShell shell (login_shell_cmd homeVar) = .ok out →
      out.success = true →
      afterMarker "ZED_LOGIN_SHELL_START" out.stdout = none →
        load_login_shell_environment (some shell) homeVar runShell
          parse_env_output = .ok [])
  ∧ (∀ envOutput, runShell shell (login_shell_cmd homeVar) = .ok out →
      out.success = true →
      afterMarker "ZED_LOGIN_SHELL_START" out.stdout = some envOutput →
        load_login_shell_environment (some shell) homeVar runShell
          parse_env_output = .ok (parse_env_output envOutput)) := by
  refine ⟨rfl, ?_, ?_, ?_⟩
  · intro hrun hfail
    simp [load_login_shell_environment, hrun, hfail]
  · intro hrun hsucc habs
    simp [load_login_shell_environment, hrun, hsucc, habs]
  · intro envOutput hrun hsucc hmark
    simp [load_login_shell_environment, hrun, hsucc, hmark]

/-- Witness for `load_login_shell_environment_correct`: a shell whose stdout
contains the marker has exactly the text after the marker passed to the env
parser. -/
theorem load_login_shell_environment_witness :
    load_login_shell_environment (some "/bin/zsh") none
        (fun _ _ =>
          .ok { success := true, stdout := "noiseZED_LOGIN_SHELL_STARTA=B" })
        (fun s => [("captured", s)]) = .ok [("captured", "A=B")] :=
  (load_login_shell_environment_correct none
      (fun _ _ =>
        .ok { success := true, stdout := "noiseZED_LOGIN_SHELL_STARTA=B" })
      (fun s => [("captured", s)]) "/bin/zsh"
      { success := true, stdout := "noiseZED_LOGIN_SHELL_STARTA=B" }).2.2.2
    "A=B" rfl rfl (by rfl)

theorem foldl_pushLine (N : Nat) (hN : 0 < N) :
    ∀ (xs acc : List String), acc.length ≤ N →
      xs.foldl (pushLine N) acc =
        (acc ++ xs).drop (acc.length + xs.length - N) := by
  intro xs
  induction xs with
  | nil =>
      intro acc hacc
      simp [Nat.sub_eq_zero_of_le hacc]
  | cons x xs ih =>
      intro acc hacc
      rw [List.foldl_cons]
      by_cases h : acc.length = N
      · have hnil : acc ≠ [] := by
          intro hnil
          rw [hnil] at h
          simp at h
          omega
        obtain ⟨a, t, rfl⟩ := List.exists_cons_of_ne_nil hnil
        have hNt : t.length + 1 = N := by simpa using h
        have hstep : pushLine N (a :: t) x = t ++ [x] := by
          simp [pushLine, h]
        rw [hstep, ih (t ++ [x]) (by simp; omega)]
        have e1 : (t ++ [x]) ++ xs = t ++ x :: xs := by simp
        have e2 : (t ++ [x]).length + xs.length - N = xs.length := by
          simp
          omega
        have e3 : (a :: t).length + (x :: xs).length - N = xs.length + 1 := by
          simp
          omega
        rw [e1, e2, e3]
        have e4 : (a :: t) ++ x :: xs = a :: (t ++ x :: xs) := rfl
        rw [e4, List.drop_succ_cons]
      · have hlt : acc.length < N := lt_of_le_of_ne hacc h
        have hstep : pushLine N acc x = acc ++ [x] := by
          simp [pushLine, h]
        rw [hstep, ih (acc ++ [x]) (by simp; omega)]
        have e1 : (acc ++ [x]) ++ xs = acc ++ x :: xs := by simp
        have e2 : (acc ++ [x]).length + xs.length - N =
            acc.length + (x :: xs).length - N := by
          simp
          omega
        rw [e1, e2]

theorem collectLines_eq_lastN (N : Nat) (hN : 0 < N) (lines : List String) :
    collectLines N lines = lines.drop (lines.length - N) := by
  have h := foldl_pushLine N hN lines [] (by simp)
  simpa [collectLines] using h

/-- C10: `open_log_file` shows an error notification (no text) exactly when
loading both the old and the current log file fails; otherwise the displayed
text is built from the last `MAX_LINES` (1000) lines of the old log lines
followed by the current log lines, the oldest lines being dropped first. -/
theorem open_log_file_text_correct (oldLog newLog : Except Unit String) :
    (open_log_file_text oldLog newLog = none ↔
        (oldLog = .error () ∧ newLog = .error ()))
  ∧ (¬ (oldLog = .error () ∧ newLog = .error ()) →
      open_log_file_text oldLog newLog =
        some (String.join
          (((exceptLines oldLog ++ exceptLines newLog).drop
              ((exceptLines oldLog ++ exceptLines newLog).length -
                MAX_LINES)).flatMap (fun line => [line, "\n"])))) := by
  have hc := collectLines_eq_lastN MAX_LINES (by decide)
  constructor
  · cases oldLog with
    | error e =>
        cases e
        cases newLog with
        | error e2 => cases e2; simp [open_log_file_text]
        | ok s => simp [open_log_file_text]
    | ok s =>
        cases newLog with
        | error e2 => cases e2; simp [open_log_file_text]
        | ok s2 => simp [open_log_file_text]
  · intro hne
    cases oldLog with
    | error e =>
        cases e
        cases newLog with
        | error e2 => cases e2; exact absurd ⟨rfl, rfl⟩ hne
        | ok s => simp [open_log_file_text, hc]
    | ok s =>
        cases newLog with
        | error e2 => cases e2; simp [open_log_file_text, hc]
        | ok s2 => simp [open_log_file_text, hc]

/-- Witness for `open_log_file_text_correct`: with the old log unreadable
and a two-line current log, the shown text is those two lines. -/
theorem open_log_file_text_witness :
    open_log_file_text (.error ()) (.ok "a\nb") = some "a\nb\n" := by
  have h := (open_log_file_text_correct (.error ()) (.ok "a\nb")).2
    (fun hb => Except.noConfusion hb.2)
  rw [h]
  rfl







